import Mathlib

/-!
Verification of the SGP4/SDP4 propagator core (src/lib.rs and src/deep_space.rs).

The development shallowly embeds the numeric pipeline of the propagator.
Pieces that the code computes with field operations only (guards, branch
classification, the discrete resonance-integrator update) are embedded over ℚ so
that they evaluate on concrete inputs; pieces involving transcendental functions
(cos, sin, real powers) are embedded over ℝ.  Floating-point double values are
modelled by exact rationals or reals; the decimal literals of the source are
read at face value.
-/

namespace SGP4

/-- Modelled from the spec: the constant `model::PI` lives in `model.rs`, which is not part
of the provided sources; per the spec (sections 4.3 and 4.4) it is the circle constant π. -/
noncomputable def modelPI : ℝ := Real.pi

/-- Branch dispatch condition of `Constants::new` (src/lib.rs line 213): the near-earth
propagator is selected exactly when `orbit_0.mean_motion > 2.0 * model::PI / 255.0`. -/
noncomputable def takesNearEarthBranch (mean_motion : ℝ) : Prop :=
  mean_motion > 2 * modelPI / 255

/-- The dispatch criterion as the spec states it (section 4.3): near earth exactly when
n₀″ > 2π/225, i.e. the orbital period is under 225 minutes. -/
noncomputable def specNearEarthCriterion (mean_motion : ℝ) : Prop :=
  mean_motion > 2 * modelPI / 225

/-- Eccentricity validation at the top of `Constants::new` (src/lib.rs lines 85-86):
the constructor fails with "the eccentricity must be in the range [0, 1[" exactly when
this predicate holds. -/
def constantsNewRejectsEccentricity (eccentricity : ℝ) : Prop :=
  eccentricity < 0 ∨ eccentricity ≥ 1

/-- Classification of a deep-space orbit by the resonance guard of `deep_space::constants`
(src/deep_space.rs lines 170-176 and 452-454). -/
inductive ResonanceClass where
  | oneDay
  | halfDay
  | nonResonant
deriving DecidableEq

/-- The resonance classification performed in `deep_space::constants`
(src/deep_space.rs lines 170-176, falling through to `Resonant::No` at lines 452-454):
the outer guard tests `(n₀ < 0.0052359877 ∧ n₀ > 0.0034906585) ∨ (n₀ ≥ 8.26e-3 ∧
n₀ ≤ 9.24e-3 ∧ e₀ ≥ 0.5)`, and the inner test (line 176) retests the one-day band. -/
def classifyResonance (mean_motion eccentricity : ℚ) : ResonanceClass :=
  if (mean_motion < 0.0052359877 ∧ mean_motion > 0.0034906585)
      ∨ (mean_motion ≥ 8.26e-3 ∧ mean_motion ≤ 9.24e-3 ∧ eccentricity ≥ 0.5) then
    if mean_motion < 0.0052359877 ∧ mean_motion > 0.0034906585 then
      ResonanceClass.oneDay
    else
      ResonanceClass.halfDay
  else
    ResonanceClass.nonResonant

/-- The eccentricity guards of `Constants::deep_space_orbital_elements`
(src/deep_space.rs lines 721-731).  `p29 = e₀ + ė t − B* C₄ t` is tested for divergence,
then floored at 10⁻⁶, then the lunisolar periodic contribution `delta_e` (computed by
`long_period_periodic_effects` in third_body.rs, which is not part of the provided
sources, hence taken here as a parameter) is added and the result tested again. -/
def eccentricityGuard (eccentricity_0 eccentricity_dot drag_term c4 t delta_e : ℚ) :
    Except String ℚ :=
  if eccentricity_0 + eccentricity_dot * t - drag_term * c4 * t ≥ 1 ∨
      eccentricity_0 + eccentricity_dot * t - drag_term * c4 * t < -0.001 then
    Except.error "diverging eccentricity"
  else if max (eccentricity_0 + eccentricity_dot * t - drag_term * c4 * t) 1.0e-6
        + delta_e < 0 ∨
      max (eccentricity_0 + eccentricity_dot * t - drag_term * c4 * t) 1.0e-6
        + delta_e > 1 then
    Except.error "diverging perturbed eccentricity"
  else
    Except.ok (max (eccentricity_0 + eccentricity_dot * t - drag_term * c4 * t) 1.0e-6
      + delta_e)

/-- Sign-bit test `f64::is_sign_positive` used by the integrator guard.  On every value the
guard can actually observe the sign bit agrees with `0 ≤ x` (the state time starts at
literal `0.0`, whose sign bit is positive, and is only ever shifted by ±720). -/
def isSignPositive (x : ℚ) : Bool := 0 ≤ x

/-- The monotonicity guard at the head of `ResonanceState::integrate`
(src/deep_space.rs lines 480-484).  When it holds the method aborts the program at once,
before the sidereal time, the step direction or any state update is computed. -/
def integrateGuardTrips (state_t t : ℚ) : Bool :=
  (decide (state_t ≠ 0) && (isSignPositive state_t != isSignPositive t))
    || decide (|t| < |state_t|)

/-- The integrator step length |Δt| (src/deep_space.rs line 25). -/
def DELTA_T : ℚ := 720

/-- The signed step chooser of `ResonanceState::integrate` (src/deep_space.rs
lines 487-491): Δt = +720 when t > 0 and −720 otherwise. -/
def chooseDeltaT (t : ℚ) : ℚ := if t > 0 then DELTA_T else -DELTA_T

/-- The discrete state update of one full resonance-integrator step
(src/deep_space.rs lines 595-602): first-order terms are multiplied by the signed
`delta_t`, second-order terms by `DELTA_T^2 / 2`, which is always positive.  Returns the
updated `(mean_motion, lambda)`. -/
def resonanceStep (delta_t n lam ni_dot ni_ddot lambda_dot : ℚ) : ℚ × ℚ :=
  (n + ni_dot * delta_t + ni_ddot * (DELTA_T ^ 2 / 2),
   lam + lambda_dot * delta_t + ni_dot * (DELTA_T ^ 2 / 2))

/-- The gravity model constants (`model::Geopotential`; the table itself lives outside the
provided sources, but `Constants::new` and `Orbit::from_kozai_elements` only read these
five fields). -/
structure Geopotential where
  ae : ℝ
  ke : ℝ
  j2 : ℝ
  j3 : ℝ
  j4 : ℝ

/-- The mean orbital elements at epoch (`propagator::Orbit`). -/
structure Orbit where
  inclination : ℝ
  right_ascension : ℝ
  eccentricity : ℝ
  argument_of_perigee : ℝ
  mean_anomaly : ℝ
  mean_motion : ℝ

/-- The Kozai-to-Brouwer mean-motion conversion, the body of the `mean_motion` block of
`Orbit::from_kozai_elements` (src/lib.rs lines 27-49). -/
noncomputable def kozaiToBrouwer (geopotential : Geopotential)
    (inclination eccentricity kozai_mean_motion : ℝ) : ℝ :=
  let a1 := (geopotential.ke / kozai_mean_motion) ^ ((2 : ℝ) / 3)
  let p2 := 0.75 * geopotential.j2 * (3 * Real.cos inclination ^ 2 - 1)
      / (1 - eccentricity ^ 2) ^ ((3 : ℝ) / 2)
  let d1 := p2 / a1 ^ 2
  let d0 := p2 / (a1 * (1 - d1 ^ 2 - d1 * (1 / 3 + 134 * d1 ^ 2 / 81))) ^ 2
  kozai_mean_motion / (1 + d0)

/-- `Orbit::from_kozai_elements` (src/lib.rs lines 14-64): validate the Kozai mean motion,
convert it to the Brouwer mean motion, validate that, and build the orbit with every other
element passed through unchanged. -/
noncomputable def fromKozaiElements (geopotential : Geopotential)
    (inclination right_ascension eccentricity argument_of_perigee mean_anomaly
      kozai_mean_motion : ℝ) : Except String Orbit :=
  if kozai_mean_motion ≤ 0 then
    Except.error "the Kozai mean motion must be positive"
  else if kozaiToBrouwer geopotential inclination eccentricity kozai_mean_motion ≤ 0 then
    Except.error "the Brouwer mean motion must be positive"
  else
    Except.ok
      { inclination := inclination
        right_ascension := right_ascension
        eccentricity := eccentricity
        argument_of_perigee := argument_of_perigee
        mean_anomaly := mean_anomaly
        mean_motion := kozaiToBrouwer geopotential inclination eccentricity kozai_mean_motion }

/-- The Brouwer mean-motion formula exactly as the claim words it: a₁ = (kₑ/n₀)^(2/3),
p₂ = (3/4) J₂ (3 cos²I₀ − 1)/(1−e₀²)^(3/2), δ₁ = p₂/a₁², δ₀ = p₂/(a₁(1 − δ₁² −
δ₁(1/3 + 134 δ₁²/81)))², n₀″ = n₀/(1+δ₀). -/
noncomputable def brouwerClaimFormula (ke j2 inclination eccentricity n0 : ℝ) : ℝ :=
  let a1 := (ke / n0) ^ ((2 : ℝ) / 3)
  let p2 := (3 / 4) * j2 * (3 * Real.cos inclination ^ 2 - 1)
      / (1 - eccentricity ^ 2) ^ ((3 : ℝ) / 2)
  let d1 := p2 / a1 ^ 2
  let d0 := p2 / (a1 * (1 - d1 ^ 2 - d1 * (1 / 3 + 134 * d1 ^ 2 / 81))) ^ 2
  n0 / (1 + d0)

/-- Rust `%` on doubles (remainder truncated toward zero), used for the reductions
`p21 % (2.0 * model::PI)` in src/deep_space.rs. -/
noncomputable def truncRem (x m : ℝ) : ℝ :=
  x - m * (if 0 ≤ x / m then (⌊x / m⌋ : ℝ) else (⌈x / m⌉ : ℝ))

/-- Rust `f64::rem_euclid` for a positive modulus (result in `[0, m)`), used for
`p21.rem_euclid(2.0 * model::PI)` in src/deep_space.rs line 713. -/
noncomputable def euclidRem (x m : ℝ) : ℝ := x - m * (⌊x / m⌋ : ℝ)

/-- The secular right-ascension accumulation `p21 = Ω₀ + Ω̇ t + k₀ t²`
(src/lib.rs line 314). -/
def p21Accum (right_ascension_0 right_ascension_dot k0 t : ℝ) : ℝ :=
  right_ascension_0 + right_ascension_dot * t + k0 * t ^ 2

/-- The low-inclination (I < 0.2) argument-of-perigee formula of
`Constants::deep_space_orbital_elements` (src/deep_space.rs lines 704-718).  `ls` stands
for the sum l₄ₛ + l₄ₗ and `delta_i` for δIₛ + δIₗ (both computed in third_body.rs, which is
not part of the provided sources, hence parameters here); `ra` is the wrapped right
ascension.  The AFSPC flag selects the euclidean instead of the truncated remainder of
`p21v`, and this is the only place in the propagation that reads the flag. -/
noncomputable def lowInclArgumentOfPerigee (p22v ls inclination delta_i p21v ra : ℝ)
    (afspc_compatibility_mode : Bool) : ℝ :=
  p22v + ls + Real.cos inclination * (truncRem p21v (2 * modelPI) - ra)
    - delta_i
      * (if afspc_compatibility_mode then euclidRem p21v (2 * modelPI)
         else truncRem p21v (2 * modelPI))
      * Real.sin inclination

/-- One Newton correction Δ of the Kepler iteration (src/lib.rs lines 372-373). -/
noncomputable def keplerDelta (p35 axn ayn ew : ℝ) : ℝ :=
  (p35 - ayn * Real.cos ew + axn * Real.sin ew - ew)
    / (1 - Real.cos ew * axn - Real.sin ew * ayn)

/-- The clamp of a Newton correction to [−0.95, 0.95] (src/lib.rs lines 380-386). -/
noncomputable def clampDelta (delta : ℝ) : ℝ :=
  if delta < -0.95 then -0.95 else if delta > 0.95 then 0.95 else delta

/-- The Kepler iteration of `Constants::propagate_from_state` (src/lib.rs lines 367-387):
at most `fuel` Newton corrections applied to E+ω (the source runs it with `fuel = 10`),
stopping early when |Δ| < 10⁻¹² without applying the sub-threshold correction.  Returns
the final E+ω together with the number of corrections that were applied. -/
noncomputable def keplerIterate (p35 axn ayn : ℝ) : ℕ → ℝ → ℝ × ℕ
  | 0, ew => (ew, 0)
  | fuel + 1, ew =>
    if |keplerDelta p35 axn ayn ew| < 1.0e-12 then
      (ew, 0)
    else
      ((keplerIterate p35 axn ayn fuel (ew + clampDelta (keplerDelta p35 axn ayn ew))).1,
       (keplerIterate p35 axn ayn fuel (ew + clampDelta (keplerDelta p35 axn ayn ew))).2 + 1)

/-- The mutable integrator state of `deep_space::ResonanceState` over ℝ. -/
structure ResonanceStateR where
  t : ℝ
  mean_motion : ℝ
  lambda : ℝ

/-- The loop exit test of `ResonanceState::integrate` (src/deep_space.rs lines 561-565):
with Δt = +720 the loop returns once `t − 720 < tᵢ` (comparison `Ordering::Less`), with
Δt = −720 once `t + 720 > tᵢ` (comparison `Ordering::Greater`). -/
def integrateExit (positive : Bool) (t state_t : ℝ) : Prop :=
  match positive with
  | true => t - (720 : ℝ) < state_t
  | false => t + (720 : ℝ) > state_t

noncomputable instance (positive : Bool) (t state_t : ℝ) :
    Decidable (integrateExit positive t state_t) :=
  match positive with
  | true => inferInstanceAs (Decidable (_ < _))
  | false => inferInstanceAs (Decidable (_ < _))

/-- The stepping loop of `ResonanceState::integrate` (src/deep_space.rs lines 492-603),
with the derivative evaluation abstracted: `deriv tᵢ λᵢ λ̇ᵢ` stands for the
resonance-dependent pair (ṅᵢ, n̈ᵢ) of lines 495-560 (a function of the current state and
of λ̇ᵢ = nᵢ + λ̇₀ only).  On the exit branch the loop returns the state and derivatives
from which lines 566-592 compute the final predictor values.  Structured with explicit
fuel; `none` means the fuel ran out before the exit test fired. -/
noncomputable def integrateLoop (deriv : ℝ → ℝ → ℝ → ℝ × ℝ) (lambda_dot_0 t : ℝ)
    (positive : Bool) :
    ℕ → ResonanceStateR → Option (ResonanceStateR × ℝ × ℝ × ℝ)
  | 0, _ => none
  | fuel + 1, s =>
    if integrateExit positive t s.t then
      some (s, (deriv s.t s.lambda (s.mean_motion + lambda_dot_0)).1,
        (deriv s.t s.lambda (s.mean_motion + lambda_dot_0)).2,
        s.mean_motion + lambda_dot_0)
    else
      integrateLoop deriv lambda_dot_0 t positive fuel
        { t := s.t + (if positive then (720 : ℝ) else -(720 : ℝ))
          mean_motion := s.mean_motion
            + (deriv s.t s.lambda (s.mean_motion + lambda_dot_0)).1
              * (if positive then (720 : ℝ) else -(720 : ℝ))
            + (deriv s.t s.lambda (s.mean_motion + lambda_dot_0)).2 * ((720 : ℝ) ^ 2 / 2)
          lambda := s.lambda
            + (s.mean_motion + lambda_dot_0)
              * (if positive then (720 : ℝ) else -(720 : ℝ))
            + (deriv s.t s.lambda (s.mean_motion + lambda_dot_0)).1
              * ((720 : ℝ) ^ 2 / 2) }

/-- C7: in the deep-space branch, the orbit is classified as 24-hour resonant if and only
if 0.0034906585 < n₀″ < 0.0052359877; as 12-hour resonant if and only if it is not 24-hour
resonant and 0.00826 ≤ n₀″ ≤ 0.00924 and e₀ ≥ 0.5; and as non-resonant otherwise, with
exactly these boundary constants and inclusive/exclusive comparisons. -/
theorem c7_resonance_classification (n0 e0 : ℚ) :
    (classifyResonance n0 e0 = ResonanceClass.oneDay ↔
      0.0034906585 < n0 ∧ n0 < 0.0052359877) ∧
    (classifyResonance n0 e0 = ResonanceClass.halfDay ↔
      ¬(0.0034906585 < n0 ∧ n0 < 0.0052359877) ∧
        (0.00826 ≤ n0 ∧ n0 ≤ 0.00924 ∧ 0.5 ≤ e0)) ∧
    (classifyResonance n0 e0 = ResonanceClass.nonResonant ↔
      ¬(0.0034906585 < n0 ∧ n0 < 0.0052359877) ∧
        ¬(0.00826 ≤ n0 ∧ n0 ≤ 0.00924 ∧ 0.5 ≤ e0)) := by
  unfold classifyResonance
  by_cases hA : n0 < 0.0052359877 ∧ n0 > 0.0034906585
  · rw [if_pos (Or.inl hA), if_pos hA]
    exact ⟨iff_of_true rfl ⟨hA.2, hA.1⟩,
      iff_of_false (by decide) (fun h => h.1 ⟨hA.2, hA.1⟩),
      iff_of_false (by decide) (fun h => h.1 ⟨hA.2, hA.1⟩)⟩
  · by_cases hB : 0.00826 ≤ n0 ∧ n0 ≤ 0.00924 ∧ 0.5 ≤ e0
    · rw [if_pos (Or.inr ⟨hB.1, hB.2.1, hB.2.2⟩), if_neg hA]
      exact ⟨iff_of_false (by decide) (fun hc => hA ⟨hc.2, hc.1⟩),
        iff_of_true rfl ⟨fun hc => hA ⟨hc.2, hc.1⟩, hB⟩,
        iff_of_false (by decide) (fun h => h.2 hB)⟩
    · rw [if_neg (fun h => h.elim hA (fun hb => hB ⟨hb.1, hb.2.1, hb.2.2⟩))]
      exact ⟨iff_of_false (by decide) (fun hc => hA ⟨hc.2, hc.1⟩),
        iff_of_false (by decide) (fun h => hB h.2),
        iff_of_true rfl ⟨fun hc => hA ⟨hc.2, hc.1⟩, hB⟩⟩

/-- C4: during deep-space propagation at time t, with p₂₉ = e₀ + ė t − B* C₄ t, the
propagation fails with "diverging eccentricity" if and only if p₂₉ ≥ 1 or p₂₉ < −0.001;
otherwise p₂₉ is floored at 10⁻⁶ before the lunisolar δe is added, and the propagation
fails with "diverging perturbed eccentricity" if and only if the perturbed eccentricity
falls outside [0, 1]. -/
theorem c4_eccentricity_guards (e0 edot bstar c4 t de : ℚ) :
    (eccentricityGuard e0 edot bstar c4 t de = Except.error "diverging eccentricity" ↔
      e0 + edot * t - bstar * c4 * t ≥ 1 ∨ e0 + edot * t - bstar * c4 * t < -0.001) ∧
    (eccentricityGuard e0 edot bstar c4 t de =
        Except.error "diverging perturbed eccentricity" ↔
      ¬(e0 + edot * t - bstar * c4 * t ≥ 1 ∨ e0 + edot * t - bstar * c4 * t < -0.001) ∧
        (max (e0 + edot * t - bstar * c4 * t) 1.0e-6 + de < 0 ∨
          max (e0 + edot * t - bstar * c4 * t) 1.0e-6 + de > 1)) ∧
    (∀ e, eccentricityGuard e0 edot bstar c4 t de = Except.ok e →
      e = max (e0 + edot * t - bstar * c4 * t) 1.0e-6 + de) := by
  unfold eccentricityGuard
  split_ifs with h1 h2 <;> simp_all

/-- Witness for C4: a concrete successful pass through both guards. -/
theorem c4_witness :
    eccentricityGuard 0.5 0 0 0 0 0 = Except.ok 0.5 ∧
      (0.5 : ℚ) = max (0.5 + 0 * 0 - 0 * 0 * 0) 1.0e-6 + 0 := by
  have hok : eccentricityGuard 0.5 0 0 0 0 0 = Except.ok 0.5 := by
    unfold eccentricityGuard
    norm_num
  exact ⟨hok, (c4_eccentricity_guards 0.5 0 0 0 0 0).2.2 0.5 hok⟩

/-- C2 (counterexample): with e₀ = 0.99 and every remaining quantity concrete, the
deep-space eccentricity guard at t = 0 succeeds rather than returning the error
"diverging eccentricity" the claim demands: p₂₉ = 0.99 passes the p₂₉ ≥ 1 test. -/
theorem c2_counterexample : eccentricityGuard 0.99 0 0 0 0 0 = Except.ok 0.99 := by
  unfold eccentricityGuard
  norm_num

/-- C2 (amended): for every Constants built from elements with eccentricity e₀ = 0.99 — or
any e₀ in [0, 1), the range `Constants::new` enforces — propagation at t = 0 never returns
"diverging eccentricity", whatever the secular rate ė, the drag term, C₄ and the lunisolar
δe are: at t = 0 the tested value is p₂₉ = e₀ itself.  A divergence failure at t = 0 can
only be "diverging perturbed eccentricity". -/
theorem c2_no_diverging_eccentricity_at_t0 (e0 edot bstar c4 de : ℚ)
    (h0 : 0 ≤ e0) (h1 : e0 < 1) :
    eccentricityGuard e0 edot bstar c4 0 de ≠ Except.error "diverging eccentricity" := by
  unfold eccentricityGuard
  have he : e0 + edot * 0 - bstar * c4 * 0 = e0 := by ring
  have hp : ¬(e0 + edot * 0 - bstar * c4 * 0 ≥ 1 ∨
      e0 + edot * 0 - bstar * c4 * 0 < -0.001) := by
    rw [he]
    push_neg
    norm_num
    constructor <;> linarith
  rw [if_neg hp]
  split_ifs <;> simp

/-- Witness for C2's amended theorem, instantiated at e₀ = 0.99 with nonzero rates and a
nonzero lunisolar δe. -/
theorem c2_witness :
    (0 : ℚ) ≤ 0.99 ∧ (0.99 : ℚ) < 1 ∧
      eccentricityGuard 0.99 1 2 3 0 4 ≠ Except.error "diverging eccentricity" :=
  ⟨by norm_num, by norm_num,
    c2_no_diverging_eccentricity_at_t0 0.99 1 2 3 4 (by norm_num) (by norm_num)⟩

/-- C5: the guard of `ResonanceState::integrate` aborts exactly when the target time t has
a different sign from the state time tᵢ while tᵢ ≠ 0, or |t| < |tᵢ|; on every other
combination it lets the integration proceed. -/
theorem c5_integrate_guard (state_t t : ℚ) :
    integrateGuardTrips state_t t = true ↔
      (state_t ≠ 0 ∧ ((0 < state_t ∧ t < 0) ∨ (state_t < 0 ∧ 0 < t))) ∨
        |t| < |state_t| := by
  unfold integrateGuardTrips isSignPositive
  rcases lt_trichotomy state_t 0 with h | h | h <;>
    rcases lt_trichotomy t 0 with h2 | h2 | h2 <;>
      simp_all [abs_of_neg, abs_of_pos, le_of_lt, not_le.mpr]

/-- C8: in every full step of the resonance integrator the first-order terms of the n and
λ updates are multiplied by the signed step Δt = +720 or −720 chosen by the sign of t,
while the second-order terms are multiplied by the always-positive 720²/2; hence for
negative-time propagation the discrete update is not the mirror image of the positive-time
update (unless the corresponding second-order derivative vanishes). -/
theorem c8_signed_step (t n lam ni_dot ni_ddot lambda_dot : ℚ) :
    (0 < t → chooseDeltaT t = 720) ∧
    (t ≤ 0 → chooseDeltaT t = -720) ∧
    (resonanceStep (chooseDeltaT t) n lam ni_dot ni_ddot lambda_dot =
      (n + ni_dot * chooseDeltaT t + ni_ddot * (720 ^ 2 / 2),
       lam + lambda_dot * chooseDeltaT t + ni_dot * (720 ^ 2 / 2))) ∧
    (ni_ddot ≠ 0 →
      (resonanceStep (-720) n lam ni_dot ni_ddot lambda_dot).1 - n ≠
        -((resonanceStep 720 n lam ni_dot ni_ddot lambda_dot).1 - n)) ∧
    (ni_dot ≠ 0 →
      (resonanceStep (-720) n lam ni_dot ni_ddot lambda_dot).2 - lam ≠
        -((resonanceStep 720 n lam ni_dot ni_ddot lambda_dot).2 - lam)) := by
  refine ⟨fun ht => ?_, fun ht => ?_, ?_, fun hd heq => hd ?_, fun hd heq => hd ?_⟩
  · unfold chooseDeltaT DELTA_T
    rw [if_pos ht]
  · unfold chooseDeltaT DELTA_T
    rw [if_neg (not_lt.mpr ht)]
  · unfold resonanceStep DELTA_T
    norm_num
  · unfold resonanceStep DELTA_T at heq
    norm_num at heq
    linarith
  · unfold resonanceStep DELTA_T at heq
    norm_num at heq
    linarith

/-- Witness for C8, instantiated at t = 1 and unit derivatives. -/
theorem c8_witness :
    (0 : ℚ) < 1 ∧ (1 : ℚ) ≠ 0 ∧ chooseDeltaT 1 = 720 ∧
      (resonanceStep (-720) 0 0 1 1 0).1 - 0 ≠ -((resonanceStep 720 0 0 1 1 0).1 - 0) := by
  have h := c8_signed_step 1 0 0 1 1 0
  exact ⟨by norm_num, by norm_num, h.1 (by norm_num), h.2.2.2.1 (by norm_num)⟩

/-- C1 (code bug): at the Brouwer mean motion n₀″ = 0.026 rad/min the orbital period
2π/n₀″ ≈ 241.7 minutes exceeds 225 minutes, so the documented dispatch criterion
(spec section 4.3: near earth iff n₀″ > 2π/225) requires the deep-space branch, yet
`Constants::new` takes the near-earth branch because src/lib.rs line 213 compares the
mean motion against 2π/255 instead of 2π/225. -/
theorem c1_dispatch_code_bug :
    takesNearEarthBranch 0.026 ∧ ¬ specNearEarthCriterion 0.026 := by
  unfold takesNearEarthBranch specNearEarthCriterion modelPI
  have hlt := Real.pi_lt_d2
  have hgt := Real.pi_gt_d2
  constructor
  · rw [gt_iff_lt, div_lt_iff₀ (by norm_num : (0 : ℝ) < 255)]
    nlinarith
  · rw [gt_iff_lt, not_lt, le_div_iff₀ (by norm_num : (0 : ℝ) < 225)]
    nlinarith

/-- For a non-negative numerator (and positive modulus) the truncated remainder agrees
with the euclidean remainder. -/
theorem truncRem_eq_euclidRem_of_nonneg (x m : ℝ) (hm : 0 < m) (hx : 0 ≤ x) :
    truncRem x m = euclidRem x m := by
  unfold truncRem euclidRem
  rw [if_pos (div_nonneg hx hm.le)]

/-- C3 (amended): the AFSPC compatibility flag only changes the modular reduction of p₂₁
in the δI term of the low-inclination argument-of-perigee formula, and the two reductions
coincide whenever p₂₁ ≥ 0 — so the two modes return the same prediction for every time t
(non-negative or not) at which p₂₁ = Ω₀ + Ω̇ t + k₀ t² is non-negative.  (For t ≥ 0 with
p₂₁ < 0, which is reachable, the modes may differ; see the counterexample.) -/
theorem c3_afspc_modes_agree_on_nonneg_p21
    (p22v ls inclination delta_i p21v ra : ℝ) (h : 0 ≤ p21v) :
    lowInclArgumentOfPerigee p22v ls inclination delta_i p21v ra true =
      lowInclArgumentOfPerigee p22v ls inclination delta_i p21v ra false := by
  have h2pi : (0 : ℝ) < 2 * modelPI := by
    unfold modelPI
    positivity
  unfold lowInclArgumentOfPerigee
  rw [truncRem_eq_euclidRem_of_nonneg p21v (2 * modelPI) h2pi h]
  simp

/-- Witness for C3's amended theorem at the concrete non-negative p₂₁ = 1. -/
theorem c3_witness :
    (0 : ℝ) ≤ 1 ∧
      lowInclArgumentOfPerigee 0 0 0.1 1 1 0 true =
        lowInclArgumentOfPerigee 0 0 0.1 1 1 0 false :=
  ⟨zero_le_one, c3_afspc_modes_agree_on_nonneg_p21 0 0 0.1 1 1 0 zero_le_one⟩

/-- C3 (counterexample): at the non-negative time t = 0, an orbit with Ω₀ = −1 (the right
ascension is never range-checked) gives p₂₁ = −1, where the euclidean and the truncated
remainders modulo 2π differ by 2π; with inclination 0.1 (< 0.2, the low-inclination
branch) and lunisolar δI = 1, propagating with the AFSPC flag set and cleared produces
different arguments of perigee, hence different predictions, refuting the claim that the
two modes agree at every t ≥ 0. -/
theorem c3_counterexample :
    p21Accum (-1) 0 0 0 = -1 ∧
      lowInclArgumentOfPerigee 0 0 0.1 1 (p21Accum (-1) 0 0 0) 0 true ≠
        lowInclArgumentOfPerigee 0 0 0.1 1 (p21Accum (-1) 0 0 0) 0 false := by
  have hp : p21Accum (-1) 0 0 0 = -1 := by
    unfold p21Accum
    ring
  have hpi := Real.pi_gt_d2
  have h2pi : (0 : ℝ) < 2 * modelPI := by
    unfold modelPI
    positivity
  have hql : (-1 : ℝ) < -1 / (2 * modelPI) := by
    rw [neg_div, neg_lt_neg_iff, div_lt_one h2pi]
    unfold modelPI
    linarith
  have hqn : -1 / (2 * modelPI) < 0 := div_neg_of_neg_of_pos (by norm_num) h2pi
  have hfloor : ⌊(-1 : ℝ) / (2 * modelPI)⌋ = -1 := by
    rw [Int.floor_eq_iff]
    push_cast
    exact ⟨hql.le, by linarith⟩
  have hceil : ⌈(-1 : ℝ) / (2 * modelPI)⌉ = 0 := by
    rw [Int.ceil_eq_iff]
    push_cast
    exact ⟨by linarith, hqn.le⟩
  have hER : euclidRem (-1) (2 * modelPI) = 2 * modelPI - 1 := by
    unfold euclidRem
    rw [hfloor]
    push_cast
    ring
  have hTR : truncRem (-1) (2 * modelPI) = -1 := by
    unfold truncRem
    rw [if_neg (not_le.mpr hqn), hceil]
    push_cast
    ring
  refine ⟨hp, ?_⟩
  rw [hp]
  unfold lowInclArgumentOfPerigee
  simp only [if_pos, if_neg, Bool.false_eq_true, ite_true, ite_false, reduceIte]
  rw [hER, hTR]
  intro heq
  have hsin : 0 < Real.sin 0.1 :=
    Real.sin_pos_of_pos_of_lt_pi (by norm_num) (by linarith)
  have hpip : (0 : ℝ) < modelPI := by
    unfold modelPI
    linarith
  nlinarith [heq, hsin, hpip]

/-- The code formula of the Brouwer conversion (with literal 0.75) agrees with the claim
formula (with 3/4). -/
theorem kozaiToBrouwer_eq_claim (g : Geopotential) (inclination eccentricity n0 : ℝ) :
    kozaiToBrouwer g inclination eccentricity n0 =
      brouwerClaimFormula g.ke g.j2 inclination eccentricity n0 := by
  unfold kozaiToBrouwer brouwerClaimFormula
  norm_num

/-- C6: `Orbit::from_kozai_elements` returns an error exactly when the input Kozai mean
motion n₀ ≤ 0 (message "the Kozai mean motion must be positive") or the derived Brouwer
mean motion n₀″ ≤ 0 (message "the Brouwer mean motion must be positive"); on success the
returned mean motion equals n₀/(1+δ₀) with a₁ = (kₑ/n₀)^(2/3), p₂ = (3/4)J₂(3cos²I₀−1)/
(1−e₀²)^(3/2), δ₁ = p₂/a₁², δ₀ = p₂/(a₁(1−δ₁²−δ₁(1/3+134δ₁²/81)))². -/
theorem c6_from_kozai_characterization (g : Geopotential)
    (inclination right_ascension eccentricity argument_of_perigee mean_anomaly n0 : ℝ) :
    (fromKozaiElements g inclination right_ascension eccentricity argument_of_perigee
        mean_anomaly n0 = Except.error "the Kozai mean motion must be positive" ↔
      n0 ≤ 0) ∧
    (fromKozaiElements g inclination right_ascension eccentricity argument_of_perigee
        mean_anomaly n0 = Except.error "the Brouwer mean motion must be positive" ↔
      0 < n0 ∧ kozaiToBrouwer g inclination eccentricity n0 ≤ 0) ∧
    ((∃ o, fromKozaiElements g inclination right_ascension eccentricity argument_of_perigee
        mean_anomaly n0 = Except.ok o) ↔
      0 < n0 ∧ 0 < kozaiToBrouwer g inclination eccentricity n0) ∧
    (∀ o, fromKozaiElements g inclination right_ascension eccentricity argument_of_perigee
        mean_anomaly n0 = Except.ok o →
      o.mean_motion = brouwerClaimFormula g.ke g.j2 inclination eccentricity n0) := by
  unfold fromKozaiElements
  split_ifs with h1 h2
  · exact ⟨iff_of_true rfl h1,
      iff_of_false (by simp) (fun h => absurd h.1 (not_lt.mpr h1)),
      iff_of_false (by simp) (fun h => absurd h.1 (not_lt.mpr h1)),
      fun o ho => absurd ho (by simp)⟩
  · exact ⟨iff_of_false (by simp) h1,
      iff_of_true rfl ⟨not_le.mp h1, h2⟩,
      iff_of_false (by simp) (fun h => absurd h.2 (not_lt.mpr h2)),
      fun o ho => absurd ho (by simp)⟩
  · refine ⟨iff_of_false (by simp) h1,
      iff_of_false (by simp) (fun h => h2 h.2),
      iff_of_true ⟨_, rfl⟩ ⟨not_le.mp h1, not_le.mp h2⟩,
      fun o ho => ?_⟩
    rw [← Except.ok.inj ho]
    exact kozaiToBrouwer_eq_claim g inclination eccentricity n0

/-- Witness for C6: with kₑ = 1, J₂ = 0, I₀ = 0, e₀ = 0 and n₀ = 1 the conversion
succeeds and returns mean motion 1. -/
theorem c6_witness :
    fromKozaiElements ⟨1, 1, 0, 0, 0⟩ 0 0 0 0 0 1 = Except.ok ⟨0, 0, 0, 0, 0, 1⟩ ∧
      (⟨0, 0, 0, 0, 0, 1⟩ : Orbit).mean_motion = brouwerClaimFormula 1 0 0 0 1 := by
  have hb : kozaiToBrouwer ⟨1, 1, 0, 0, 0⟩ 0 0 1 = 1 := by
    unfold kozaiToBrouwer
    norm_num [Real.one_rpow]
  have hok : fromKozaiElements ⟨1, 1, 0, 0, 0⟩ 0 0 0 0 0 1 =
      Except.ok ⟨0, 0, 0, 0, 0, 1⟩ := by
    unfold fromKozaiElements
    rw [hb]
    norm_num
  exact ⟨hok, (c6_from_kozai_characterization ⟨1, 1, 0, 0, 0⟩ 0 0 0 0 0 1).2.2.2 _ hok⟩

/-- C10: on success `Orbit::from_kozai_elements` returns the caller's inclination, right
ascension, eccentricity, argument of perigee and mean anomaly exactly, unchanged; only the
mean motion field differs (the Kozai value converted to Brouwer); and no range check is
applied to any field other than the mean motions — concretely, the out-of-range
eccentricity −0.5 ∉ [0, 1) is accepted here and is rejected only by the check at the top
of `Constants::new`. -/
theorem c10_field_passthrough (g : Geopotential)
    (inclination right_ascension eccentricity argument_of_perigee mean_anomaly n0 : ℝ)
    (o : Orbit)
    (h : fromKozaiElements g inclination right_ascension eccentricity argument_of_perigee
      mean_anomaly n0 = Except.ok o) :
    (o.inclination = inclination ∧ o.right_ascension = right_ascension ∧
      o.eccentricity = eccentricity ∧ o.argument_of_perigee = argument_of_perigee ∧
      o.mean_anomaly = mean_anomaly ∧
      o.mean_motion = kozaiToBrouwer g inclination eccentricity n0) ∧
    (fromKozaiElements ⟨1, 1, 0, 0, 0⟩ 0 0 (-0.5) 0 0 1 =
        Except.ok ⟨0, 0, -0.5, 0, 0, 1⟩ ∧
      constantsNewRejectsEccentricity (-0.5)) := by
  constructor
  · unfold fromKozaiElements at h
    split_ifs at h
    rw [← Except.ok.inj h]
    exact ⟨rfl, rfl, rfl, rfl, rfl, rfl⟩
  · constructor
    · have hb : kozaiToBrouwer ⟨1, 1, 0, 0, 0⟩ 0 (-0.5) 1 = 1 := by
        unfold kozaiToBrouwer
        norm_num [Real.one_rpow]
      unfold fromKozaiElements
      rw [hb]
      norm_num
    · unfold constantsNewRejectsEccentricity
      left
      norm_num

/-- Witness for C10 at a successful concrete conversion with e₀ = −0.5. -/
theorem c10_witness :
    fromKozaiElements ⟨1, 1, 0, 0, 0⟩ 0 0 (-0.5) 0 0 1 = Except.ok ⟨0, 0, -0.5, 0, 0, 1⟩ ∧
      (⟨0, 0, -0.5, 0, 0, 1⟩ : Orbit).eccentricity = -0.5 := by
  have hb : kozaiToBrouwer ⟨1, 1, 0, 0, 0⟩ 0 (-0.5) 1 = 1 := by
    unfold kozaiToBrouwer
    norm_num [Real.one_rpow]
  have hok : fromKozaiElements ⟨1, 1, 0, 0, 0⟩ 0 0 (-0.5) 0 0 1 =
      Except.ok ⟨0, 0, -0.5, 0, 0, 1⟩ := by
    unfold fromKozaiElements
    rw [hb]
    norm_num
  exact ⟨hok, ((c10_field_passthrough ⟨1, 1, 0, 0, 0⟩ 0 0 (-0.5) 0 0 1 _ hok).1).2.2.1⟩

/-- Every clamped Newton correction lies in [−0.95, 0.95]. -/
theorem clampDelta_bounds (delta : ℝ) :
    -0.95 ≤ clampDelta delta ∧ clampDelta delta ≤ 0.95 := by
  unfold clampDelta
  split_ifs with h1 h2
  · constructor <;> norm_num
  · constructor <;> norm_num
  · exact ⟨not_lt.mp h1, not_lt.mp h2⟩

/-- The Kepler iteration applies at most `fuel` Newton corrections. -/
theorem keplerIterate_count_le (p35 axn ayn : ℝ) :
    ∀ fuel ew, (keplerIterate p35 axn ayn fuel ew).2 ≤ fuel := by
  intro fuel
  induction fuel with
  | zero =>
    intro ew
    unfold keplerIterate
    exact Nat.le_refl 0
  | succ n ih =>
    intro ew
    unfold keplerIterate
    split_ifs
    · exact Nat.zero_le _
    · exact Nat.succ_le_succ (ih _)

/-- Forward progress of the resonance loop: stepping by +720 reaches the exit test within
the fuel bound when the remaining offset is covered. -/
theorem integrateLoop_pos_total (deriv : ℝ → ℝ → ℝ → ℝ × ℝ) (lambda_dot_0 t : ℝ) :
    ∀ (fuel : ℕ) (s : ResonanceStateR), t - s.t ≤ 720 * (fuel : ℝ) →
      (integrateLoop deriv lambda_dot_0 t true (fuel + 1) s).isSome := by
  intro fuel
  induction fuel with
  | zero =>
    intro s hs
    unfold integrateLoop
    have hexit : integrateExit true t s.t := by
      show t - (720 : ℝ) < s.t
      norm_num at hs
      linarith
    rw [if_pos hexit]
    rfl
  | succ n ih =>
    intro s hs
    unfold integrateLoop
    by_cases h : integrateExit true t s.t
    · rw [if_pos h]
      rfl
    · rw [if_neg h]
      apply ih
      have h720 : ¬(t - (720 : ℝ) < s.t) := h
      push_neg at h720
      push_cast at hs
      show t - (s.t + (720 : ℝ)) ≤ 720 * (n : ℝ)
      linarith

/-- Backward progress of the resonance loop: stepping by −720 reaches the exit test within
the fuel bound when the remaining offset is covered. -/
theorem integrateLoop_neg_total (deriv : ℝ → ℝ → ℝ → ℝ × ℝ) (lambda_dot_0 t : ℝ) :
    ∀ (fuel : ℕ) (s : ResonanceStateR), s.t - t ≤ 720 * (fuel : ℝ) →
      (integrateLoop deriv lambda_dot_0 t false (fuel + 1) s).isSome := by
  intro fuel
  induction fuel with
  | zero =>
    intro s hs
    unfold integrateLoop
    have hexit : integrateExit false t s.t := by
      show t + (720 : ℝ) > s.t
      norm_num at hs
      linarith
    rw [if_pos hexit]
    rfl
  | succ n ih =>
    intro s hs
    unfold integrateLoop
    by_cases h : integrateExit false t s.t
    · rw [if_pos h]
      rfl
    · rw [if_neg h]
      apply ih
      have h720 : ¬(t + (720 : ℝ) > s.t) := h
      push_neg at h720
      push_cast at hs
      show (s.t + -(720 : ℝ)) - t ≤ 720 * (n : ℝ)
      linarith

/-- C9: every call of `propagate_from_state` terminates — the Kepler iteration performs at
most 10 Newton corrections, each applied correction clamped to [−0.95, 0.95], stopping
early without applying a correction of magnitude below 10⁻¹²; and under the monotonicity
precondition (current state time between 0 and the target t) the resonance integration
loop reaches its exit branch and the final predictor evaluation within ⌈|t|/720⌉ full
steps plus one. -/
theorem c9_termination :
    (∀ p35 axn ayn ew, (keplerIterate p35 axn ayn 10 ew).2 ≤ 10) ∧
    (∀ delta, -0.95 ≤ clampDelta delta ∧ clampDelta delta ≤ 0.95) ∧
    (∀ p35 axn ayn fuel ew, |keplerDelta p35 axn ayn ew| < 1.0e-12 →
      keplerIterate p35 axn ayn (fuel + 1) ew = (ew, 0)) ∧
    (∀ deriv lambda_dot_0 t (s : ResonanceStateR), 0 ≤ s.t → s.t ≤ t →
      (integrateLoop deriv lambda_dot_0 t true (⌈t / 720⌉₊ + 1) s).isSome) ∧
    (∀ deriv lambda_dot_0 t (s : ResonanceStateR), t ≤ s.t → s.t ≤ 0 →
      (integrateLoop deriv lambda_dot_0 t false (⌈-t / 720⌉₊ + 1) s).isSome) := by
  refine ⟨fun p35 axn ayn ew => keplerIterate_count_le p35 axn ayn 10 ew,
    clampDelta_bounds,
    fun p35 axn ayn fuel ew hsmall => ?_,
    fun deriv lambda_dot_0 t s h0 h1 => ?_,
    fun deriv lambda_dot_0 t s h0 h1 => ?_⟩
  · unfold keplerIterate
    rw [if_pos hsmall]
  · apply integrateLoop_pos_total
    have hceil : t / 720 ≤ (⌈t / 720⌉₊ : ℝ) := Nat.le_ceil _
    have : t ≤ 720 * (⌈t / 720⌉₊ : ℝ) := by
      rw [div_le_iff₀ (by norm_num : (0 : ℝ) < 720)] at hceil
      linarith
    linarith
  · apply integrateLoop_neg_total
    have hceil : -t / 720 ≤ (⌈-t / 720⌉₊ : ℝ) := Nat.le_ceil _
    have : -t ≤ 720 * (⌈-t / 720⌉₊ : ℝ) := by
      rw [div_le_iff₀ (by norm_num : (0 : ℝ) < 720)] at hceil
      linarith
    linarith

/-- Witness for C9: the loop bounds applied at a concrete target time t = 1000 from a
fresh state. -/
theorem c9_witness :
    (keplerIterate 1 0 0 10 1).2 ≤ 10 ∧ (0 : ℝ) ≤ 0 ∧ (0 : ℝ) ≤ 1000 ∧
      (integrateLoop (fun _ _ _ => (0, 0)) 0 1000 true (⌈(1000 : ℝ) / 720⌉₊ + 1)
        ⟨0, 0, 0⟩).isSome := by
  refine ⟨c9_termination.1 1 0 0 1, le_refl 0, by norm_num, ?_⟩
  exact c9_termination.2.2.2.1 (fun _ _ _ => (0, 0)) 0 1000 ⟨0, 0, 0⟩ (le_refl 0)
    (by norm_num)

end SGP4
